import Mathlib

/-!
Verification of the didtheleafslose game-result poller and storage layer.

The definitions below are a shallow embedding of the TypeScript source:
- `src/netlify/functions/check-game.mts` (the scheduled poller, second
  revision in the file: lines 75-530 of the concatenated source), and
- `src/app/lib/storage.ts` / its build-time variant (the Result Store
  read layer used by the rendering pages).

Remote interactions (HTTP fetches, the Gemini call) are modelled as
oracle values supplied in a `PollEnv`: `Except.error e` stands for a
rejected promise (a thrown exception at the `await`), `Except.ok none`
for a response with a non-success HTTP status, and `Except.ok (some v)`
for a successful response carrying parsed payload `v`.  Timestamps
(`Date.now()`, `startTimeUTC` after `new Date(-).getTime()`) are
modelled as epoch milliseconds (`Int`).  Fields of the landing/boxscore
payloads that only feed the text of the Gemini prompt (goal details,
penalties, three stars, player stat lines) are not modelled: no claim
depends on the prompt text, only on the control flow and on the
`scoring` period types used for the OT/SO flags.
-/

/-- `periodDescriptor` of a scoring period; only `periodType` ("OT"/"SO"/
regulation) drives behaviour (check-game.mts lines 292-293, 508-509). -/
structure PeriodDescriptor where
  number : Nat
  periodType : String
deriving Repr, DecidableEq

/-- A scoring period from the landing summary (goal entries omitted:
they only feed the prompt text). -/
structure ScoringPeriod where
  periodDescriptor : PeriodDescriptor
deriving Repr, DecidableEq

/-- `homeTeam`/`awayTeam` of a schedule `Game`; `placeName` is the
`placeName.default` string, `score` is the optional score field.
The source field `abbrev` is called `abbr` here because `abbrev` is a
Lean keyword. -/
structure TeamInfo where
  abbr : String
  placeName : String
  score : Option Int
deriving Repr, DecidableEq

/-- A game of the season schedule (check-game.mts lines 84-99).
`startTimeUTC` is modelled as epoch milliseconds. -/
structure Game where
  id : Nat
  gameDate : String
  gameState : String
  startTimeUTC : Int
  awayTeam : TeamInfo
  homeTeam : TeamInfo
deriving Repr, DecidableEq

/-- Completed filter: `gameState === "OFF" || gameState === "FINAL"`
(check-game.mts lines 210-212). -/
def isCompletedGame (g : Game) : Bool :=
  g.gameState == "OFF" || g.gameState == "FINAL"

/-- Future filter: `gameState === "FUT"` (lines 214-216). -/
def isFutureGame (g : Game) : Bool :=
  g.gameState == "FUT"

/-- Live filter: neither terminal nor future (lines 219-221). -/
def isLiveGame (g : Game) : Bool :=
  g.gameState != "OFF" && g.gameState != "FINAL" && g.gameState != "FUT"

/-- Result of classifying the schedule (check-game.mts lines 193-197). -/
structure ScheduleData where
  latestCompleted : Option Game
  nextUpcoming : Option Game
  gameInProgress : Option Game
deriving Repr, DecidableEq

/-- Pure part of `getScheduleData` (check-game.mts lines 210-227): the
three filters and the ternary selections
`completedGames.length > 0 ? completedGames[completedGames.length - 1] : null`,
`upcomingGames.length > 0 ? upcomingGames[0] : null`,
`liveGames.length > 0 ? liveGames[0] : null`. -/
def getScheduleData (games : List Game) : ScheduleData :=
  let completedGames := games.filter isCompletedGame
  let upcomingGames := games.filter isFutureGame
  let liveGames := games.filter isLiveGame
  { latestCompleted :=
      if completedGames.length > 0 then completedGames[completedGames.length - 1]? else none
    nextUpcoming :=
      if upcomingGames.length > 0 then upcomingGames[0]? else none
    gameInProgress :=
      if liveGames.length > 0 then liveGames[0]? else none }

/-- `isLeafsHome = game.homeTeam.abbrev === "TOR"` (check-game.mts
lines 285, 478). -/
def isLeafsHomeOf (g : Game) : Bool :=
  g.homeTeam.abbr == "TOR"

/-- `leafsScore = isLeafsHome ? game.homeTeam.score ?? 0 : game.awayTeam.score ?? 0`
(lines 286, 494). -/
def leafsScoreOf (g : Game) : Int :=
  if isLeafsHomeOf g then g.homeTeam.score.getD 0 else g.awayTeam.score.getD 0

/-- `opponentScore = isLeafsHome ? game.awayTeam.score ?? 0 : game.homeTeam.score ?? 0`
(lines 287, 495). -/
def opponentScoreOf (g : Game) : Int :=
  if isLeafsHomeOf g then g.awayTeam.score.getD 0 else g.homeTeam.score.getD 0

/-- `opponent = isLeafsHome ? awayTeam.placeName.default : homeTeam.placeName.default`
(lines 288-290, 496-498). -/
def opponentOf (g : Game) : String :=
  if isLeafsHomeOf g then g.awayTeam.placeName else g.homeTeam.placeName

/-- `didLose = leafsScore < opponentScore` (lines 291, 505). -/
def didLoseOf (g : Game) : Bool :=
  decide (leafsScoreOf g < opponentScoreOf g)

/-- `wasOT = scoring.some(p => p.periodDescriptor.periodType === "OT")`
(lines 292, 508). -/
def wasOTOf (scoring : List ScoringPeriod) : Bool :=
  scoring.any fun p => p.periodDescriptor.periodType == "OT"

/-- `wasSO = scoring.some(p => p.periodDescriptor.periodType === "SO")`
(lines 293, 509). -/
def wasSOOf (scoring : List ScoringPeriod) : Bool :=
  scoring.any fun p => p.periodDescriptor.periodType == "SO"

/-- The persisted `StoredGame` record (check-game.mts lines 105-116,
storage.ts lines 5-16). -/
structure StoredGame where
  gameId : Nat
  gameDate : String
  opponent : String
  isLeafsHome : Bool
  didLose : Bool
  leafsScore : Int
  opponentScore : Int
  wasOT : Bool
  wasSO : Bool
  review : String
deriving Repr, DecidableEq

/-- Construction of the stored record (check-game.mts lines 493-511). -/
def mkStoredGame (g : Game) (scoring : List ScoringPeriod) (review : String) : StoredGame :=
  { gameId := g.id
    gameDate := g.gameDate
    opponent := opponentOf g
    isLeafsHome := isLeafsHomeOf g
    didLose := didLoseOf g
    leafsScore := leafsScoreOf g
    opponentScore := opponentScoreOf g
    wasOT := wasOTOf scoring
    wasSO := wasSOOf scoring
    review := review }

/-- `currentGameKey` construction: the template string
`${latestGame.id}-${latestGame.gameDate}` (check-game.mts line 458). -/
def gameKey (g : Game) : String :=
  toString g.id ++ "-" ++ g.gameDate

/-- Contents of the "game-state" blob store: the `nextGameTime` and
`lastGameId` keys (check-game.mts lines 416, 459, 465, 518, 520).
`nextGameTime` is kept already parsed as epoch milliseconds. -/
structure StateStore where
  nextGameTime : Option Int
  lastGameId : Option String
deriving Repr, DecidableEq

/-- Contents of the "game-reviews" blob store, as an association list
from blob key to stored record. -/
structure ReviewsStore where
  entries : List (String × StoredGame)
deriving Repr, DecidableEq

/-- `reviewsStore.get(key, { type: "json" })`: the record under `key`,
if any. -/
def storeGet (rv : ReviewsStore) (k : String) : Option StoredGame :=
  (rv.entries.find? fun e => e.1 == k).map Prod.snd

/-- `reviewsStore.setJSON(key, value)`: overwrite-or-insert under `key`. -/
def storeSet (rv : ReviewsStore) (k : String) (v : StoredGame) : ReviewsStore :=
  ⟨(k, v) :: rv.entries.filter fun e => e.1 != k⟩

/-- Number of records stored under a given key (used to state
"exactly one StoredResult under that game's id"). -/
def countKey (rv : ReviewsStore) (k : String) : Nat :=
  (rv.entries.filter fun e => e.1 == k).length

/-- Oracle results for the remote interactions of one poll invocation.
For each fetch, `Except.error e` is a rejected promise (exception `e`
thrown at the `await`), `Except.ok none` a non-ok HTTP response, and
`Except.ok (some v)` a successful response with payload `v`. -/
structure PollEnv where
  /-- `Date.now()` in milliseconds (line 420). -/
  now : Int
  /-- The schedule fetch inside `getScheduleData` (lines 200-208);
  the payload is the parsed `data.games`. -/
  scheduleFetch : Except String (Option (List Game))
  /-- The gamecenter landing fetch inside `getGameData` (line 232);
  the payload is `landing.summary.scoring` (other landing fields only
  feed the prompt text). -/
  landingFetch : Except String (Option (List ScoringPeriod))
  /-- The gamecenter boxscore fetch inside `getGameData` (line 233);
  its payload only feeds the prompt text, so only the outcome shape is
  modelled. -/
  boxscoreFetch : Except String (Option Unit)
  /-- `process.env.GEMINI_API_KEY` (line 279). -/
  geminiKey : Option String
  /-- Outcome of `model.generateContent(prompt)` (lines 398-404):
  `Except.ok text` is a successful generation, `Except.error e` a
  thrown error (caught by the source's try/catch). -/
  geminiResult : Except String String
  /-- The build-hook POST inside `triggerRebuild` (lines 407-409);
  the payload is `res.ok` (ignored by the source). -/
  rebuildFetch : Except String Bool
deriving Repr

/-- `getGameData` (check-game.mts lines 230-265): awaits both fetches
via `Promise.all` (a rejection of either propagates), then defaults a
missing landing payload to an empty scoring list
(`landing?.summary?.scoring ?? []`). -/
def getGameData (landingFetch : Except String (Option (List ScoringPeriod)))
    (boxscoreFetch : Except String (Option Unit)) :
    Except String (List ScoringPeriod) :=
  match landingFetch, boxscoreFetch with
  | Except.error e, _ => Except.error e
  | Except.ok _, Except.error e => Except.error e
  | Except.ok landing, Except.ok _ => Except.ok (landing.getD [])

/-- `generateReview` (check-game.mts lines 267-405), reduced to its
control flow: returns null when the API key is missing or the
generation call throws (the try/catch at lines 398-404), otherwise the
generated text.  The prompt construction is pure string formatting and
cannot change the outcome. -/
def generateReview (geminiKey : Option String) (geminiResult : Except String String) :
    Option String :=
  match geminiKey with
  | none => none
  | some _ =>
    match geminiResult with
    | Except.error _ => none
    | Except.ok text => some text

/-- How many times each remote operation ran during one invocation. -/
structure Trace where
  /-- Schedule-endpoint HTTP calls (`getScheduleData` invocations). -/
  scheduleCalls : Nat
  /-- Game-detail fetches (`getGameData` invocations; each is the
  landing + boxscore pair). -/
  detailCalls : Nat
  /-- Recap-generator invocations (`generateReview` calls). -/
  recapCalls : Nat
  /-- Rebuild-hook POSTs (`triggerRebuild` invocations). -/
  rebuildCalls : Nat
deriving Repr, DecidableEq

/-- The all-zero trace: no remote operation ran. -/
def emptyTrace : Trace := ⟨0, 0, 0, 0⟩

/-- The trace after only the schedule fetch ran. -/
def scheduleOnlyTrace : Trace := ⟨1, 0, 0, 0⟩

/-- Observable outcome of one poll invocation: the returned response
body (`Except.error e` when the invocation threw `e` to its caller),
the final contents of both stores, and the trace of remote calls. -/
structure PollOutcome where
  response : Except String String
  state : StateStore
  reviews : ReviewsStore
  trace : Trace
deriving Repr

/-- Lines 517-525 of check-game.mts: set `lastGameId`, refresh
`nextGameTime` from the next upcoming game when present, then
`triggerRebuild()` (whose `await fetch` is not guarded: a rejection
propagates after the state writes have already happened). -/
def finishProcessing (env : PollEnv) (st : StateStore) (rv : ReviewsStore) (tr : Trace)
    (schedule : ScheduleData) (currentGameKey : String) (gameId : Nat) : PollOutcome :=
  let st1 : StateStore := { st with lastGameId := some currentGameKey }
  let st2 : StateStore :=
    match schedule.nextUpcoming with
    | some g => { st1 with nextGameTime := some g.startTimeUTC }
    | none => st1
  match env.rebuildFetch with
  | Except.error e =>
    { response := Except.error e, state := st2, reviews := rv
      trace := { tr with rebuildCalls := tr.rebuildCalls + 1 } }
  | Except.ok _ =>
    { response := Except.ok ("Processed game " ++ toString gameId), state := st2, reviews := rv
      trace := { tr with rebuildCalls := tr.rebuildCalls + 1 } }

/-- Lines 471-515 of check-game.mts: the processing path for a newly
detected completed game.  If a review already exists under the game's
id the expensive path is skipped; otherwise the detail fetch runs (a
rejection propagates), then `generateReview`; a non-null review is
stored, a null review stores nothing — and either way control falls
through to the unconditional state update of lines 517-525. -/
def processNewGame (env : PollEnv) (st : StateStore) (rv : ReviewsStore) (tr : Trace)
    (schedule : ScheduleData) (latestGame : Game) (currentGameKey : String) : PollOutcome :=
  match storeGet rv (toString latestGame.id) with
  | some _ => finishProcessing env st rv tr schedule currentGameKey latestGame.id
  | none =>
    match getGameData env.landingFetch env.boxscoreFetch with
    | Except.error e =>
      { response := Except.error e, state := st, reviews := rv
        trace := { tr with detailCalls := tr.detailCalls + 1 } }
    | Except.ok scoring =>
      let tr2 : Trace := { tr with detailCalls := tr.detailCalls + 1
                                   recapCalls := tr.recapCalls + 1 }
      match generateReview env.geminiKey env.geminiResult with
      | some review =>
        finishProcessing env st
          (storeSet rv (toString latestGame.id) (mkStoredGame latestGame scoring review))
          tr2 schedule currentGameKey latestGame.id
      | none => finishProcessing env st rv tr2 schedule currentGameKey latestGame.id

/-- Lines 441-469 of check-game.mts: the polling phase entered once the
time gate is passed.  Fetches the schedule (a rejection propagates, a
non-ok response exits with "Could not fetch schedule"), exits while a
game is live or no game is completed, short-circuits via
`lastGameId === currentGameKey` (refreshing `nextGameTime`), and
otherwise hands over to the processing path. -/
def pollSchedulePhase (env : PollEnv) (st : StateStore) (rv : ReviewsStore) : PollOutcome :=
  match env.scheduleFetch with
  | Except.error e =>
    { response := Except.error e, state := st, reviews := rv, trace := scheduleOnlyTrace }
  | Except.ok none =>
    { response := Except.ok "Could not fetch schedule", state := st, reviews := rv
      trace := scheduleOnlyTrace }
  | Except.ok (some games) =>
    let schedule := getScheduleData games
    match schedule.gameInProgress with
    | some _ =>
      { response := Except.ok "Game in progress", state := st, reviews := rv
        trace := scheduleOnlyTrace }
    | none =>
      match schedule.latestCompleted with
      | none =>
        { response := Except.ok "No completed games", state := st, reviews := rv
          trace := scheduleOnlyTrace }
      | some latestGame =>
        let currentGameKey := gameKey latestGame
        if st.lastGameId == some currentGameKey then
          let st2 : StateStore :=
            match schedule.nextUpcoming with
            | some g => { st with nextGameTime := some g.startTimeUTC }
            | none => st
          { response := Except.ok "No new games", state := st2, reviews := rv
            trace := scheduleOnlyTrace }
        else
          processNewGame env st rv scheduleOnlyTrace schedule latestGame currentGameKey

/-- The poll handler (check-game.mts lines 411-526).  Lines 416-438:
when a `nextGameTime` is stored and now is before it, or within 90
minutes past it, the invocation exits without any remote call;
otherwise the polling phase runs. -/
def pollOnce (env : PollEnv) (st : StateStore) (rv : ReviewsStore) : PollOutcome :=
  match st.nextGameTime with
  | some gameStart =>
    let msSinceStart := env.now - gameStart
    if msSinceStart < 0 then
      { response := Except.ok "Game not started", state := st, reviews := rv
        trace := emptyTrace }
    else if msSinceStart < 90 * 60 * 1000 then
      { response := Except.ok "Game in progress", state := st, reviews := rv
        trace := emptyTrace }
    else pollSchedulePhase env st rv
  | none => pollSchedulePhase env st rv

/-!
The rendering-layer Result Store reads, from `src/app/lib/storage.ts`
(and the build-time variant `src/unnamed/part_001`, whose bodies are
identical apart from credential plumbing inside `getStore`).
`isNetlify` models `isNetlifyEnvironment()`; the store interactions of
each function's `try` block are again an `Except` oracle: the `list()`
call and the `get` calls are modelled jointly, an `Except.error`
meaning any of them threw (in the source the `catch` then returns the
default).  An individual `store.get` may resolve to `null`, hence the
`Option` inside `fetched`. -/

/-- The JS sort comparator `(a, b) => b.gameDate.localeCompare(a.gameDate)`
(storage.ts line 72), i.e. "a before b when b's date is at most a's";
`localeCompare` on ISO `YYYY-MM-DD` dates is modelled as lexicographic
string order. -/
def dateDesc (a b : StoredGame) : Bool :=
  decide (b.gameDate ≤ a.gameDate)

/-- `getGameReview` (storage.ts lines 38-51): `null` outside a Netlify
environment, `null` when the store access throws, otherwise the fetched
record (possibly `null`). -/
def getGameReview (isNetlify : Bool) (got : Except String (Option StoredGame)) :
    Option StoredGame :=
  if isNetlify then
    match got with
    | Except.error _ => none
    | Except.ok g => g
  else none

/-- `getAllGameReviews` (storage.ts lines 53-77): `[]` outside a
Netlify environment or when the store access throws; otherwise the
fetched records with `null` entries filtered out, sorted by game date
descending (`.filter(g => g !== null).sort((a, b) =>
b.gameDate.localeCompare(a.gameDate))`).  The engine's `Array.sort` is
modelled as a merge sort. -/
def getAllGameReviews (isNetlify : Bool)
    (fetched : Except String (List (Option StoredGame))) : List StoredGame :=
  if isNetlify then
    match fetched with
    | Except.error _ => []
    | Except.ok games => (games.filterMap id).mergeSort dateDesc
  else []

/-- `getAllGameIds` (storage.ts lines 79-92): `[]` outside a Netlify
environment or when the store access throws, otherwise the listed blob
keys (`blobs.map(blob => blob.key)`; blobs are modelled by their keys). -/
def getAllGameIds (isNetlify : Bool) (listed : Except String (List String)) :
    List String :=
  if isNetlify then
    match listed with
    | Except.error _ => []
    | Except.ok keys => keys
  else []

/-!
Theorems.
-/

/-- Claim C1: for every game record, the derived verdict's lost flag
equals exactly `homeScore < awayScore` when the tracked team TOR is the
home team (per the game's home-team abbreviation) and
`awayScore < homeScore` when it is the away team, a missing score being
treated as 0 in the comparison.  Stated both for the `didLose` field of
the persisted record (check-game.mts lines 494-505) and for the
`didLose` value computed inside the recap generator (lines 285-291). -/
theorem didLose_matches_score_comparison (g : Game) (scoring : List ScoringPeriod)
    (review : String) :
    (mkStoredGame g scoring review).didLose =
      (if g.homeTeam.abbr == "TOR"
        then decide (g.homeTeam.score.getD 0 < g.awayTeam.score.getD 0)
        else decide (g.awayTeam.score.getD 0 < g.homeTeam.score.getD 0))
    ∧ didLoseOf g =
      (if g.homeTeam.abbr == "TOR"
        then decide (g.homeTeam.score.getD 0 < g.awayTeam.score.getD 0)
        else decide (g.awayTeam.score.getD 0 < g.homeTeam.score.getD 0)) := by
  constructor <;>
  · show didLoseOf g = _
    unfold didLoseOf leafsScoreOf opponentScoreOf isLeafsHomeOf
    cases h : (g.homeTeam.abbr == "TOR") <;> simp [h]

/-- Claim C6: the schedule classification is a partition — every game
is classified into exactly one of completed, future, or in-progress
(the first conjunct: the three indicator bits always sum to 1), and the
three filtered sets together cover the whole input sequence (the second
conjunct: their sizes add up to the input's length). -/
theorem classification_partition (games : List Game) :
    (∀ g : Game,
      (isCompletedGame g).toNat + (isFutureGame g).toNat + (isLiveGame g).toNat = 1)
    ∧ (games.filter isCompletedGame).length + (games.filter isFutureGame).length
        + (games.filter isLiveGame).length = games.length := by
  have hone : ∀ g : Game,
      (isCompletedGame g).toNat + (isFutureGame g).toNat + (isLiveGame g).toNat = 1 := by
    intro g
    unfold isCompletedGame isFutureGame isLiveGame
    by_cases h1 : g.gameState = "OFF"
    · rw [h1]; decide
    · by_cases h2 : g.gameState = "FINAL"
      · rw [h2]; decide
      · by_cases h3 : g.gameState = "FUT"
        · rw [h3]; decide
        · have b1 : (g.gameState == "OFF") = false := by simp [h1]
          have b2 : (g.gameState == "FINAL") = false := by simp [h2]
          have b3 : (g.gameState == "FUT") = false := by simp [h3]
          simp [b1, b2, b3, bne]
  refine ⟨hone, ?_⟩
  induction games with
  | nil => simp
  | cons g t ih =>
    have hg := hone g
    simp only [List.filter_cons]
    cases hc : isCompletedGame g <;> cases hf : isFutureGame g <;>
      cases hl : isLiveGame g <;> rw [hc, hf, hl] at hg <;> simp at hg <;>
      simp [List.length_cons] <;> omega

/-- Claim C7: the latest completed game selected from the schedule is
the last completed entry in schedule order, and the next upcoming game
is the first entry in a future state; `getLast?`/`head?` are `none`
exactly when the corresponding filtered set is empty, so an empty set
yields an absent selection. -/
theorem schedule_selection (games : List Game) :
    (getScheduleData games).latestCompleted = (games.filter isCompletedGame).getLast?
    ∧ (getScheduleData games).nextUpcoming = (games.filter isFutureGame).head? := by
  unfold getScheduleData
  constructor
  · show (if (games.filter isCompletedGame).length > 0
        then (games.filter isCompletedGame)[(games.filter isCompletedGame).length - 1]?
        else none) = _
    rw [List.getLast?_eq_getElem?]
    by_cases h : (games.filter isCompletedGame).length > 0
    · simp [h]
    · have : games.filter isCompletedGame = [] := List.length_eq_zero.mp (by omega)
      simp [this]
  · show (if (games.filter isFutureGame).length > 0
        then (games.filter isFutureGame)[0]?
        else none) = _
    rw [List.head?_eq_getElem?]
    by_cases h : (games.filter isFutureGame).length > 0
    · simp [h]
    · have : games.filter isFutureGame = [] := List.length_eq_zero.mp (by omega)
      simp [this]

/-- Claim C5: if a next-game start instant is stored and the current
time is before it or within 90 minutes after it, the invocation exits
without any remote call: no schedule fetch, no detail fetch, no recap
generation (and no rebuild POST), and both stores are untouched. -/
theorem gate_short_circuit (env : PollEnv) (st : StateStore) (rv : ReviewsStore) (t : Int)
    (h1 : st.nextGameTime = some t)
    (h2 : env.now < t ∨ (t ≤ env.now ∧ env.now - t < 90 * 60 * 1000)) :
    (pollOnce env st rv).trace = emptyTrace
    ∧ (pollOnce env st rv).state = st ∧ (pollOnce env st rv).reviews = rv := by
  unfold pollOnce
  rw [h1]
  by_cases hneg : env.now - t < 0
  · simp [hneg]
  · have hlt : env.now - t < 5400000 := by omega
    simp [hneg, hlt]

/-!
Concrete fixtures: a completed TOR home game against Boston with TOR
trailing 2-3, and poll environments exercising the various paths.
-/

/-- TOR as home team, score 2. -/
def torTeam : TeamInfo := { abbr := "TOR", placeName := "Toronto", score := some 2 }

/-- BOS as away team, score 3. -/
def bosTeam : TeamInfo := { abbr := "BOS", placeName := "Boston", score := some 3 }

/-- A completed game (state "OFF"). -/
def gameA : Game :=
  { id := 1, gameDate := "2026-01-01", gameState := "OFF", startTimeUTC := 0
    awayTeam := bosTeam, homeTeam := torTeam }

/-- An empty state store (bootstrap). -/
def emptyState : StateStore := { nextGameTime := none, lastGameId := none }

/-- An empty reviews store. -/
def emptyReviews : ReviewsStore := ⟨[]⟩

/-- A state store with a known next-game start instant at t = 1000ms. -/
def waitingState : StateStore := { nextGameTime := some 1000, lastGameId := none }

/-- An environment at time 0 where every remote call would succeed. -/
def happyEnv : PollEnv :=
  { now := 0
    scheduleFetch := Except.ok (some [gameA])
    landingFetch := Except.ok (some [])
    boxscoreFetch := Except.ok (some ())
    geminiKey := some "key"
    geminiResult := Except.ok "great recap"
    rebuildFetch := Except.ok true }

/-- Witness for C5: at time 0 with the next game starting at t = 1000,
the invocation makes no remote call and changes nothing. -/
theorem gate_short_circuit_witness :
    (pollOnce happyEnv waitingState emptyReviews).trace = emptyTrace
    ∧ (pollOnce happyEnv waitingState emptyReviews).state = waitingState
    ∧ (pollOnce happyEnv waitingState emptyReviews).reviews = emptyReviews :=
  gate_short_circuit happyEnv waitingState emptyReviews 1000 rfl (Or.inl (by decide))

/-- `dateDesc` is transitive. -/
theorem dateDesc_trans : ∀ a b c : StoredGame, dateDesc a b → dateDesc b c → dateDesc a c := by
  intro a b c hab hbc
  simp only [dateDesc, decide_eq_true_eq] at hab hbc ⊢
  exact le_trans hbc hab

/-- `dateDesc` is total. -/
theorem dateDesc_total : ∀ a b : StoredGame, dateDesc a b || dateDesc b a := by
  intro a b
  simp only [dateDesc]
  rcases le_total b.gameDate a.gameDate with h | h <;> simp [h]

/-- Claim C8: `getAllGameReviews` returns the stored results ordered by
game date descending (most recent first) for every store content: the
output is always pairwise descending by date, and on the successful
path it is a permutation of the well-formed fetched records. -/
theorem getAllGameReviews_sorted (isNetlify : Bool)
    (fetched : Except String (List (Option StoredGame))) :
    List.Pairwise (fun a b : StoredGame => b.gameDate ≤ a.gameDate)
      (getAllGameReviews isNetlify fetched)
    ∧ (∀ games, fetched = Except.ok games → isNetlify = true →
        (getAllGameReviews isNetlify fetched).Perm (games.filterMap id)) := by
  constructor
  · unfold getAllGameReviews
    cases isNetlify
    · simp
    · cases fetched with
      | error e => simp
      | ok games =>
        show List.Pairwise _ ((games.filterMap id).mergeSort dateDesc)
        exact (List.sorted_mergeSort dateDesc_trans dateDesc_total _).imp
          (fun h => by simpa [dateDesc] using h)
  · intro games hf hn
    subst hf
    subst hn
    show ((games.filterMap id).mergeSort dateDesc).Perm (games.filterMap id)
    exact List.mergeSort_perm _ _

/-- A stored record dated 2026-01-01. -/
def recJan : StoredGame :=
  { gameId := 1, gameDate := "2026-01-01", opponent := "Boston", isLeafsHome := true
    didLose := true, leafsScore := 2, opponentScore := 3, wasOT := false, wasSO := false
    review := "ouch" }

/-- A stored record dated 2026-02-01. -/
def recFeb : StoredGame :=
  { gameId := 2, gameDate := "2026-02-01", opponent := "Montreal", isLeafsHome := false
    didLose := false, leafsScore := 4, opponentScore := 1, wasOT := false, wasSO := false
    review := "nice" }

/-- Witness for C8: on a store fetched out of order with a null entry,
the result is date-descending and a permutation of the two records. -/
theorem getAllGameReviews_sorted_witness :
    List.Pairwise (fun a b : StoredGame => b.gameDate ≤ a.gameDate)
      (getAllGameReviews true (Except.ok [some recJan, none, some recFeb]))
    ∧ (getAllGameReviews true (Except.ok [some recJan, none, some recFeb])).Perm
        ([some recJan, none, some recFeb].filterMap id) :=
  ⟨(getAllGameReviews_sorted true (Except.ok [some recJan, none, some recFeb])).1,
   (getAllGameReviews_sorted true (Except.ok [some recJan, none, some recFeb])).2
     [some recJan, none, some recFeb] rfl rfl⟩

/-- Claim C9: every Result Store read operation exposed to the
rendering layer is total and never throws — outside a Netlify
environment `getGameReview` returns null while `getAllGameReviews` and
`getAllGameIds` return the empty list, the same holds when the
underlying store access throws, and every element returned by
`getAllGameReviews` stems from a non-null fetched record. -/
theorem storage_reads_total :
    (∀ got, getGameReview false got = none)
    ∧ (∀ (b : Bool) (e : String), getGameReview b (Except.error e) = none)
    ∧ (∀ fetched, getAllGameReviews false fetched = [])
    ∧ (∀ (b : Bool) (e : String), getAllGameReviews b (Except.error e) = [])
    ∧ (∀ listed, getAllGameIds false listed = [])
    ∧ (∀ (b : Bool) (e : String), getAllGameIds b (Except.error e) = [])
    ∧ (∀ (isN : Bool) (games : List (Option StoredGame)) (x : StoredGame),
        x ∈ getAllGameReviews isN (Except.ok games) → some x ∈ games) := by
  refine ⟨fun got => rfl, ?_, fun fetched => rfl, ?_, fun listed => rfl, ?_, ?_⟩
  · intro b e; cases b <;> rfl
  · intro b e; cases b <;> rfl
  · intro b e; cases b <;> rfl
  · intro isN games x hx
    cases isN with
    | false => simp [getAllGameReviews] at hx
    | true =>
      have hx2 : x ∈ (games.filterMap id).mergeSort dateDesc := hx
      rw [List.mem_mergeSort] at hx2
      rcases List.mem_filterMap.mp hx2 with ⟨a, ha, hax⟩
      cases a with
      | none => exact absurd hax (by simp)
      | some y =>
        obtain rfl : y = x := by simpa using hax
        exact ha

/-- Witness for C9: concrete degraded reads return the defaults, and a
record read back from a mixed store was indeed stored. -/
theorem storage_reads_total_witness :
    getGameReview false (Except.ok (some recJan)) = none
    ∧ getGameReview true (Except.error "boom") = none
    ∧ getAllGameReviews false (Except.ok [some recJan]) = []
    ∧ getAllGameReviews true (Except.error "boom") = []
    ∧ getAllGameIds false (Except.ok ["1"]) = []
    ∧ getAllGameIds true (Except.error "boom") = []
    ∧ some recJan ∈ [none, some recJan] :=
  ⟨storage_reads_total.1 _,
   storage_reads_total.2.1 true "boom",
   storage_reads_total.2.2.1 _,
   storage_reads_total.2.2.2.1 true "boom",
   storage_reads_total.2.2.2.2.1 _,
   storage_reads_total.2.2.2.2.2.1 true "boom",
   storage_reads_total.2.2.2.2.2.2 true [none, some recJan] recJan
     (by simp [getAllGameReviews, List.mergeSort])⟩

/-!
Helper lemmas about the poll handler, shared by the idempotence,
retry and propagation theorems below.
-/

/-- A store write is read back. -/
theorem storeGet_storeSet_self (rv : ReviewsStore) (k : String) (v : StoredGame) :
    storeGet (storeSet rv k v) k = some v := by
  simp [storeGet, storeSet]

/-- Dropping the entries keyed `k` does not affect a lookup for a
different key `k2`. -/
theorem find?_filter_ne (k k2 : String) (h : k2 ≠ k) :
    ∀ l : List (String × StoredGame),
      List.find? (fun e => e.1 == k2) (l.filter fun e => e.1 != k) =
        List.find? (fun e => e.1 == k2) l := by
  intro l
  induction l with
  | nil => rfl
  | cons e t ih =>
    rw [List.filter_cons]
    by_cases hek : e.1 = k
    · have hb : (e.1 != k) = false := by simp [hek]
      rw [hb]
      have hk2 : e.1 ≠ k2 := by rw [hek]; exact fun hc => h hc.symm
      simp only [Bool.false_eq_true, if_false]
      rw [List.find?_cons_of_neg _ (by simp [hk2])]
      exact ih
    · have hb : (e.1 != k) = true := by simp [hek]
      rw [hb, if_pos rfl]
      by_cases hk2 : e.1 = k2
      · rw [List.find?_cons_of_pos _ (by simp [hk2]),
            List.find?_cons_of_pos _ (by simp [hk2])]
      · rw [List.find?_cons_of_neg _ (by simp [hk2]),
            List.find?_cons_of_neg _ (by simp [hk2])]
        exact ih

/-- A store write leaves other keys untouched. -/
theorem storeGet_storeSet_ne (rv : ReviewsStore) (k k2 : String) (v : StoredGame)
    (h : k2 ≠ k) : storeGet (storeSet rv k v) k2 = storeGet rv k2 := by
  unfold storeGet storeSet
  have hk : k ≠ k2 := fun he => h he.symm
  rw [List.find?_cons_of_neg _ (by simp [hk]), find?_filter_ne k k2 h]

/-- After writing under `k`, exactly one record sits under `k`. -/
theorem countKey_storeSet_self (rv : ReviewsStore) (k : String) (v : StoredGame) :
    countKey (storeSet rv k v) k = 1 := by
  unfold countKey storeSet
  simp only [List.filter_cons, beq_self_eq_true, if_pos]
  have : (rv.entries.filter fun e => e.1 != k).filter (fun e => e.1 == k) = [] := by
    rw [List.filter_filter]
    apply List.filter_eq_nil_iff.mpr
    intro a _
    cases h : a.1 == k
    · simp [bne, h]
    · simp [bne, h]
  rw [List.filter_filter] at this
  simp [this]

/-- `finishProcessing` never touches the reviews store. -/
theorem finishProcessing_reviews (env : PollEnv) (st : StateStore) (rv : ReviewsStore)
    (tr : Trace) (sch : ScheduleData) (key : String) (gid : Nat) :
    (finishProcessing env st rv tr sch key gid).reviews = rv := by
  unfold finishProcessing
  cases sch.nextUpcoming <;> cases env.rebuildFetch <;> rfl

/-- `finishProcessing` sets `lastGameId` to the processed key. -/
theorem finishProcessing_lastGameId (env : PollEnv) (st : StateStore) (rv : ReviewsStore)
    (tr : Trace) (sch : ScheduleData) (key : String) (gid : Nat) :
    (finishProcessing env st rv tr sch key gid).state.lastGameId = some key := by
  unfold finishProcessing
  cases sch.nextUpcoming <;> cases env.rebuildFetch <;> rfl

/-- `finishProcessing` only increments the rebuild counter. -/
theorem finishProcessing_trace (env : PollEnv) (st : StateStore) (rv : ReviewsStore)
    (tr : Trace) (sch : ScheduleData) (key : String) (gid : Nat) :
    (finishProcessing env st rv tr sch key gid).trace =
      { tr with rebuildCalls := tr.rebuildCalls + 1 } := by
  unfold finishProcessing
  cases sch.nextUpcoming <;> cases env.rebuildFetch <;> rfl

/-- `finishProcessing` returns a success response when the rebuild POST
resolves. -/
theorem finishProcessing_response (env : PollEnv) (st : StateStore) (rv : ReviewsStore)
    (tr : Trace) (sch : ScheduleData) (key : String) (gid : Nat) (b : Bool)
    (h : env.rebuildFetch = Except.ok b) :
    (finishProcessing env st rv tr sch key gid).response =
      Except.ok ("Processed game " ++ toString gid) := by
  unfold finishProcessing
  rw [h]

/-- With the gate open because no next-game time is stored, the
invocation is the polling phase. -/
theorem pollOnce_gate_none (env : PollEnv) (st : StateStore) (rv : ReviewsStore)
    (h : st.nextGameTime = none) :
    pollOnce env st rv = pollSchedulePhase env st rv := by
  unfold pollOnce
  rw [h]

/-- With the gate open because the stored start instant lies at least
90 minutes in the past, the invocation is the polling phase. -/
theorem pollOnce_gate_expired (env : PollEnv) (st : StateStore) (rv : ReviewsStore) (t : Int)
    (h : st.nextGameTime = some t) (h2 : 90 * 60 * 1000 ≤ env.now - t) :
    pollOnce env st rv = pollSchedulePhase env st rv := by
  unfold pollOnce
  rw [h]
  have h3 : ¬env.now - t < 0 := by omega
  have h4 : ¬env.now - t < 5400000 := by omega
  simp [h3, h4]

/-- When the schedule resolves with a completed game, no game is live,
and the game's key differs from the stored one, the polling phase is
the processing path for that game. -/
theorem pollPhase_processes (env : PollEnv) (st : StateStore) (rv : ReviewsStore)
    (games : List Game) (g : Game)
    (hsched : env.scheduleFetch = Except.ok (some games))
    (hlive : (getScheduleData games).gameInProgress = none)
    (hlatest : (getScheduleData games).latestCompleted = some g)
    (hnew : st.lastGameId ≠ some (gameKey g)) :
    pollSchedulePhase env st rv =
      processNewGame env st rv scheduleOnlyTrace (getScheduleData games) g (gameKey g) := by
  unfold pollSchedulePhase
  rw [hsched]
  dsimp only
  rw [hlive, hlatest]
  dsimp only
  have hb : (st.lastGameId == some (gameKey g)) = false := by
    simp [hnew]
  rw [hb]
  simp

/-- When the schedule resolves with a completed game whose key equals
the stored one, the polling phase exits with "No new games", only
refreshing `nextGameTime`. -/
theorem pollPhase_no_new_game (env : PollEnv) (st : StateStore) (rv : ReviewsStore)
    (games : List Game) (g : Game)
    (hsched : env.scheduleFetch = Except.ok (some games))
    (hlive : (getScheduleData games).gameInProgress = none)
    (hlatest : (getScheduleData games).latestCompleted = some g)
    (hsame : st.lastGameId = some (gameKey g)) :
    pollSchedulePhase env st rv =
      { response := Except.ok "No new games"
        state :=
          match (getScheduleData games).nextUpcoming with
          | some u => { st with nextGameTime := some u.startTimeUTC }
          | none => st
        reviews := rv
        trace := scheduleOnlyTrace } := by
  unfold pollSchedulePhase
  rw [hsched]
  dsimp only
  rw [hlive, hlatest]
  dsimp only
  have hb : (st.lastGameId == some (gameKey g)) = true := by
    simp [hsame]
  rw [hb]
  simp

/-- With a record already stored under the game's id, the processing
path skips straight to the finishing step: no detail fetch, no recap
generation, reviews unchanged. -/
theorem processNewGame_existing (env : PollEnv) (st : StateStore) (rv : ReviewsStore)
    (tr : Trace) (sch : ScheduleData) (g : Game) (key : String) (v : StoredGame)
    (h : storeGet rv (toString g.id) = some v) :
    processNewGame env st rv tr sch g key = finishProcessing env st rv tr sch key g.id := by
  unfold processNewGame
  rw [h]

/-- With no record stored, a resolving detail fetch and a successful
recap generation, the processing path stores the constructed record and
finishes, having run one detail fetch and one recap generation. -/
theorem processNewGame_success (env : PollEnv) (st : StateStore) (rv : ReviewsStore)
    (tr : Trace) (sch : ScheduleData) (g : Game) (key : String)
    (scoring : List ScoringPeriod) (text : String)
    (h0 : storeGet rv (toString g.id) = none)
    (h1 : getGameData env.landingFetch env.boxscoreFetch = Except.ok scoring)
    (h2 : generateReview env.geminiKey env.geminiResult = some text) :
    processNewGame env st rv tr sch g key =
      finishProcessing env st
        (storeSet rv (toString g.id) (mkStoredGame g scoring text))
        { tr with detailCalls := tr.detailCalls + 1, recapCalls := tr.recapCalls + 1 }
        sch key g.id := by
  unfold processNewGame
  rw [h0, h1, h2]

/-- With no record stored, a resolving detail fetch and a null recap,
the processing path stores nothing and still finishes. -/
theorem processNewGame_nullRecap (env : PollEnv) (st : StateStore) (rv : ReviewsStore)
    (tr : Trace) (sch : ScheduleData) (g : Game) (key : String)
    (scoring : List ScoringPeriod)
    (h0 : storeGet rv (toString g.id) = none)
    (h1 : getGameData env.landingFetch env.boxscoreFetch = Except.ok scoring)
    (h2 : generateReview env.geminiKey env.geminiResult = none) :
    processNewGame env st rv tr sch g key =
      finishProcessing env st rv
        { tr with detailCalls := tr.detailCalls + 1, recapCalls := tr.recapCalls + 1 }
        sch key g.id := by
  unfold processNewGame
  rw [h0, h1, h2]

/-- Shape of the reviews store after the polling phase: either
untouched, or extended under a key that was previously vacant. -/
theorem pollSchedulePhase_reviews_cases (env : PollEnv) (st : StateStore) (rv : ReviewsStore) :
    (pollSchedulePhase env st rv).reviews = rv
    ∨ ∃ (g : Game) (scoring : List ScoringPeriod) (text : String),
        storeGet rv (toString g.id) = none
        ∧ (pollSchedulePhase env st rv).reviews =
            storeSet rv (toString g.id) (mkStoredGame g scoring text) := by
  unfold pollSchedulePhase
  cases hs : env.scheduleFetch with
  | error e => exact Or.inl rfl
  | ok o =>
    cases o with
    | none => exact Or.inl rfl
    | some games =>
      dsimp only
      cases hlp : (getScheduleData games).gameInProgress with
      | some gl => exact Or.inl rfl
      | none =>
        cases hlc : (getScheduleData games).latestCompleted with
        | none => exact Or.inl rfl
        | some g =>
          dsimp only
          by_cases hk : (st.lastGameId == some (gameKey g)) = true
          · rw [if_pos hk]
            exact Or.inl rfl
          · rw [if_neg hk]
            unfold processNewGame
            cases hex : storeGet rv (toString g.id) with
            | some v => exact Or.inl (finishProcessing_reviews ..)
            | none =>
              cases hgd : getGameData env.landingFetch env.boxscoreFetch with
              | error e => exact Or.inl rfl
              | ok scoring =>
                dsimp only
                cases hgr : generateReview env.geminiKey env.geminiResult with
                | none => exact Or.inl (finishProcessing_reviews ..)
                | some text =>
                  exact Or.inr ⟨g, scoring, text, hex, finishProcessing_reviews ..⟩

/-- Shape of the reviews store after a full invocation: either
untouched, or extended under a previously vacant key. -/
theorem pollOnce_reviews_cases (env : PollEnv) (st : StateStore) (rv : ReviewsStore) :
    (pollOnce env st rv).reviews = rv
    ∨ ∃ (g : Game) (scoring : List ScoringPeriod) (text : String),
        storeGet rv (toString g.id) = none
        ∧ (pollOnce env st rv).reviews =
            storeSet rv (toString g.id) (mkStoredGame g scoring text) := by
  unfold pollOnce
  cases hnt : st.nextGameTime with
  | none => exact pollSchedulePhase_reviews_cases env st rv
  | some t =>
    dsimp only
    by_cases h1 : env.now - t < 0
    · rw [if_pos h1]
      exact Or.inl rfl
    · rw [if_neg h1]
      by_cases h2 : env.now - t < 90 * 60 * 1000
      · rw [if_pos h2]
        exact Or.inl rfl
      · rw [if_neg h2]
        exact pollSchedulePhase_reviews_cases env st rv

/-- A poll invocation never changes a record that already exists. -/
theorem pollOnce_preserves_existing (env : PollEnv) (st : StateStore) (rv : ReviewsStore)
    (k : String) (v : StoredGame) (h : storeGet rv k = some v) :
    storeGet (pollOnce env st rv).reviews k = some v := by
  rcases pollOnce_reviews_cases env st rv with heq | ⟨g, scoring, text, hvac, heq⟩
  · rw [heq, h]
  · rw [heq]
    by_cases hk : k = toString g.id
    · rw [hk, hvac] at h
      exact absurd h (by simp)
    · rw [storeGet_storeSet_ne rv (toString g.id) k _ hk, h]

/-- With the schedule resolving to a latest completed game whose record
already exists, the polling phase performs no detail fetch and no recap
generation and leaves the reviews store unchanged. -/
theorem pollSchedulePhase_skips_existing (env : PollEnv) (st : StateStore) (rv : ReviewsStore)
    (games : List Game) (g : Game) (v : StoredGame)
    (hsched : env.scheduleFetch = Except.ok (some games))
    (hlatest : (getScheduleData games).latestCompleted = some g)
    (hrec : storeGet rv (toString g.id) = some v) :
    (pollSchedulePhase env st rv).trace.recapCalls = 0
    ∧ (pollSchedulePhase env st rv).trace.detailCalls = 0
    ∧ (pollSchedulePhase env st rv).reviews = rv := by
  unfold pollSchedulePhase
  rw [hsched]
  dsimp only
  cases hlp : (getScheduleData games).gameInProgress with
  | some gl => exact ⟨rfl, rfl, rfl⟩
  | none =>
    rw [hlatest]
    dsimp only
    by_cases hk : (st.lastGameId == some (gameKey g)) = true
    · rw [if_pos hk]
      exact ⟨rfl, rfl, rfl⟩
    · rw [if_neg hk,
        processNewGame_existing env st rv scheduleOnlyTrace (getScheduleData games) g
          (gameKey g) v hrec,
        finishProcessing_trace, finishProcessing_reviews]
      exact ⟨rfl, rfl, rfl⟩

/-- With the schedule resolving to a latest completed game whose record
already exists, a full invocation performs no detail fetch and no recap
generation and leaves the reviews store unchanged. -/
theorem pollOnce_skips_existing (env : PollEnv) (st : StateStore) (rv : ReviewsStore)
    (games : List Game) (g : Game) (v : StoredGame)
    (hsched : env.scheduleFetch = Except.ok (some games))
    (hlatest : (getScheduleData games).latestCompleted = some g)
    (hrec : storeGet rv (toString g.id) = some v) :
    (pollOnce env st rv).trace.recapCalls = 0
    ∧ (pollOnce env st rv).trace.detailCalls = 0
    ∧ (pollOnce env st rv).reviews = rv := by
  unfold pollOnce
  cases hnt : st.nextGameTime with
  | none => exact pollSchedulePhase_skips_existing env st rv games g v hsched hlatest hrec
  | some t =>
    dsimp only
    by_cases h1 : env.now - t < 0
    · rw [if_pos h1]
      exact ⟨rfl, rfl, rfl⟩
    · rw [if_neg h1]
      by_cases h2 : env.now - t < 90 * 60 * 1000
      · rw [if_pos h2]
        exact ⟨rfl, rfl, rfl⟩
      · rw [if_neg h2]
        exact pollSchedulePhase_skips_existing env st rv games g v hsched hlatest hrec

/-- Claim C2: for a fixed completed game, invoking the poller twice in
succession produces exactly one stored record under that game's id, and
the second invocation performs zero recap-generator calls and zero
game-detail fetches; more generally (last two conjuncts), whenever a
record for a gameId already exists in the Result Store, a poller
invocation neither overwrites it nor, when that game is the latest
completed one, regenerates anything. -/
theorem poll_idempotent
    (env1 env2 : PollEnv) (st : StateStore) (rv : ReviewsStore)
    (games : List Game) (g : Game) (scoring : List ScoringPeriod) (text : String)
    (hgate : ∀ t, st.nextGameTime = some t → 90 * 60 * 1000 ≤ env1.now - t)
    (hsched1 : env1.scheduleFetch = Except.ok (some games))
    (hlive : (getScheduleData games).gameInProgress = none)
    (hlatest : (getScheduleData games).latestCompleted = some g)
    (hnew : st.lastGameId ≠ some (gameKey g))
    (hnorec : storeGet rv (toString g.id) = none)
    (hdetail : getGameData env1.landingFetch env1.boxscoreFetch = Except.ok scoring)
    (hgen : generateReview env1.geminiKey env1.geminiResult = some text)
    (hsched2 : env2.scheduleFetch = Except.ok (some games)) :
    countKey (pollOnce env1 st rv).reviews (toString g.id) = 1
    ∧ (pollOnce env2 (pollOnce env1 st rv).state (pollOnce env1 st rv).reviews).trace.recapCalls
        = 0
    ∧ (pollOnce env2 (pollOnce env1 st rv).state (pollOnce env1 st rv).reviews).trace.detailCalls
        = 0
    ∧ countKey
        (pollOnce env2 (pollOnce env1 st rv).state (pollOnce env1 st rv).reviews).reviews
        (toString g.id) = 1
    ∧ (∀ (env : PollEnv) (st2 : StateStore) (rv2 : ReviewsStore) (k : String) (v : StoredGame),
        storeGet rv2 k = some v → storeGet (pollOnce env st2 rv2).reviews k = some v)
    ∧ (∀ (env : PollEnv) (st2 : StateStore) (rv2 : ReviewsStore)
        (games2 : List Game) (g2 : Game) (v : StoredGame),
        env.scheduleFetch = Except.ok (some games2) →
        (getScheduleData games2).latestCompleted = some g2 →
        storeGet rv2 (toString g2.id) = some v →
        (pollOnce env st2 rv2).trace.recapCalls = 0
        ∧ (pollOnce env st2 rv2).trace.detailCalls = 0
        ∧ (pollOnce env st2 rv2).reviews = rv2) := by
  have hchain : pollOnce env1 st rv =
      finishProcessing env1 st
        (storeSet rv (toString g.id) (mkStoredGame g scoring text))
        { scheduleOnlyTrace with
            detailCalls := scheduleOnlyTrace.detailCalls + 1
            recapCalls := scheduleOnlyTrace.recapCalls + 1 }
        (getScheduleData games) (gameKey g) g.id := by
    have hgateEq : pollOnce env1 st rv = pollSchedulePhase env1 st rv := by
      cases hnt : st.nextGameTime with
      | none => exact pollOnce_gate_none env1 st rv hnt
      | some t => exact pollOnce_gate_expired env1 st rv t hnt (hgate t hnt)
    rw [hgateEq, pollPhase_processes env1 st rv games g hsched1 hlive hlatest hnew,
        processNewGame_success env1 st rv scheduleOnlyTrace (getScheduleData games) g
          (gameKey g) scoring text hnorec hdetail hgen]
  have hrev1 : (pollOnce env1 st rv).reviews =
      storeSet rv (toString g.id) (mkStoredGame g scoring text) := by
    rw [hchain, finishProcessing_reviews]
  have hcount1 : countKey (pollOnce env1 st rv).reviews (toString g.id) = 1 := by
    rw [hrev1]
    exact countKey_storeSet_self rv _ _
  have hrec2 : storeGet (pollOnce env1 st rv).reviews (toString g.id) =
      some (mkStoredGame g scoring text) := by
    rw [hrev1]
    exact storeGet_storeSet_self rv _ _
  have hskip := pollOnce_skips_existing env2 (pollOnce env1 st rv).state
    (pollOnce env1 st rv).reviews games g (mkStoredGame g scoring text)
    hsched2 hlatest hrec2
  refine ⟨hcount1, hskip.1, hskip.2.1, ?_, ?_, ?_⟩
  · rw [hskip.2.2]
    exact hcount1
  · intro env st2 rv2 k v h
    exact pollOnce_preserves_existing env st2 rv2 k v h
  · intro env st2 rv2 games2 g2 v h1 h2 h3
    exact pollOnce_skips_existing env st2 rv2 games2 g2 v h1 h2 h3

/-- Witness for C2: two successive invocations on the fixture game
leave exactly one record under its id, with no detail fetch and no
recap call in the second invocation. -/
theorem poll_idempotent_witness :
    countKey (pollOnce happyEnv emptyState emptyReviews).reviews (toString gameA.id) = 1
    ∧ (pollOnce happyEnv (pollOnce happyEnv emptyState emptyReviews).state
        (pollOnce happyEnv emptyState emptyReviews).reviews).trace.recapCalls = 0
    ∧ (pollOnce happyEnv (pollOnce happyEnv emptyState emptyReviews).state
        (pollOnce happyEnv emptyState emptyReviews).reviews).trace.detailCalls = 0 :=
  have h := poll_idempotent happyEnv happyEnv emptyState emptyReviews [gameA] gameA []
    "great recap" (fun _ h => Option.noConfusion h) rfl rfl rfl
    (fun h => Option.noConfusion h) rfl rfl rfl rfl
  ⟨h.1, h.2.1, h.2.2.1⟩

/-- An environment in which the recap generation fails (no API key and
a throwing generation call) while everything else succeeds. -/
def nullRecapEnv : PollEnv :=
  { now := 0
    scheduleFetch := Except.ok (some [gameA])
    landingFetch := Except.ok (some [])
    boxscoreFetch := Except.ok (some ())
    geminiKey := none
    geminiResult := Except.error "no key"
    rebuildFetch := Except.ok true }

/-- Counterexample for C3: with the recap generator returning null for
the newly detected completed game, the invocation indeed stores no
record, but it DOES update `lastGameId` to the game's key, and the next
invocation therefore performs zero detail fetches and zero recap
generations instead of retrying. -/
theorem recap_null_counterexample :
    (pollOnce nullRecapEnv emptyState emptyReviews).reviews = emptyReviews
    ∧ (pollOnce nullRecapEnv emptyState emptyReviews).state.lastGameId = some (gameKey gameA)
    ∧ (pollOnce nullRecapEnv
        (pollOnce nullRecapEnv emptyState emptyReviews).state
        (pollOnce nullRecapEnv emptyState emptyReviews).reviews).trace.detailCalls = 0
    ∧ (pollOnce nullRecapEnv
        (pollOnce nullRecapEnv emptyState emptyReviews).state
        (pollOnce nullRecapEnv emptyState emptyReviews).reviews).trace.recapCalls = 0 :=
  ⟨rfl, rfl, rfl, rfl⟩

/-- Claim C3 (amended): when the recap generator returns null for a
newly detected completed game, the poller stores no record for that
game, but it nevertheless updates `lastGameId` to the game's key, so
the next invocation treats the game as already processed rather than
re-running the detail fetch and recap generation. -/
theorem recap_null_updates_key
    (env : PollEnv) (st : StateStore) (rv : ReviewsStore)
    (games : List Game) (g : Game) (scoring : List ScoringPeriod)
    (hgate : ∀ t, st.nextGameTime = some t → 90 * 60 * 1000 ≤ env.now - t)
    (hsched : env.scheduleFetch = Except.ok (some games))
    (hlive : (getScheduleData games).gameInProgress = none)
    (hlatest : (getScheduleData games).latestCompleted = some g)
    (hnew : st.lastGameId ≠ some (gameKey g))
    (hnorec : storeGet rv (toString g.id) = none)
    (hdetail : getGameData env.landingFetch env.boxscoreFetch = Except.ok scoring)
    (hgen : generateReview env.geminiKey env.geminiResult = none) :
    (pollOnce env st rv).reviews = rv
    ∧ (pollOnce env st rv).state.lastGameId = some (gameKey g) := by
  have hchain : pollOnce env st rv =
      finishProcessing env st rv
        { scheduleOnlyTrace with
            detailCalls := scheduleOnlyTrace.detailCalls + 1
            recapCalls := scheduleOnlyTrace.recapCalls + 1 }
        (getScheduleData games) (gameKey g) g.id := by
    have hgateEq : pollOnce env st rv = pollSchedulePhase env st rv := by
      cases hnt : st.nextGameTime with
      | none => exact pollOnce_gate_none env st rv hnt
      | some t => exact pollOnce_gate_expired env st rv t hnt (hgate t hnt)
    rw [hgateEq, pollPhase_processes env st rv games g hsched hlive hlatest hnew,
        processNewGame_nullRecap env st rv scheduleOnlyTrace (getScheduleData games) g
          (gameKey g) scoring hnorec hdetail hgen]
  constructor
  · rw [hchain, finishProcessing_reviews]
  · rw [hchain, finishProcessing_lastGameId]

/-- Witness for the amended C3 on the fixture game. -/
theorem recap_null_updates_key_witness :
    (pollOnce nullRecapEnv emptyState emptyReviews).reviews = emptyReviews
    ∧ (pollOnce nullRecapEnv emptyState emptyReviews).state.lastGameId
        = some (gameKey gameA) :=
  recap_null_updates_key nullRecapEnv emptyState emptyReviews [gameA] gameA []
    (fun _ h => Option.noConfusion h) rfl rfl rfl
    (fun h => Option.noConfusion h) rfl rfl rfl

/-- An environment in which every HTTP call succeeds except the rebuild
webhook POST, whose promise rejects. -/
def rebuildThrowEnv : PollEnv :=
  { now := 0
    scheduleFetch := Except.ok (some [gameA])
    landingFetch := Except.ok (some [])
    boxscoreFetch := Except.ok (some ())
    geminiKey := some "key"
    geminiResult := Except.ok "great recap"
    rebuildFetch := Except.error "network down" }

/-- Counterexample for C4: a rejected rebuild-webhook fetch is not
caught at the point of call (`triggerRebuild` has no try/catch), so the
exception propagates out of the invocation — the response is an error,
not a status, even though the record was stored and the state updated
before the throw. -/
theorem poll_throws_counterexample :
    (pollOnce rebuildThrowEnv emptyState emptyReviews).response
      = Except.error "network down"
    ∧ countKey (pollOnce rebuildThrowEnv emptyState emptyReviews).reviews
        (toString gameA.id) = 1 :=
  ⟨rfl, rfl⟩

/-- The oracle of a remote call resolved instead of rejecting. -/
def resolves {α : Type} (x : Except String α) : Prop :=
  ∃ v, x = Except.ok v

/-- When the detail fetch and the rebuild POST resolve, the processing
path ends in a success response. -/
theorem processNewGame_no_throw (env : PollEnv) (st : StateStore) (rv : ReviewsStore)
    (tr : Trace) (sch : ScheduleData) (g : Game) (key : String)
    (h2 : resolves env.landingFetch) (h3 : resolves env.boxscoreFetch)
    (h4 : resolves env.rebuildFetch) :
    ∃ msg, (processNewGame env st rv tr sch g key).response = Except.ok msg := by
  rcases h4 with ⟨b, hb⟩
  unfold processNewGame
  cases hex : storeGet rv (toString g.id) with
  | some v => exact ⟨_, finishProcessing_response env st rv tr sch key g.id b hb⟩
  | none =>
    rcases h2 with ⟨lo, hL⟩
    rcases h3 with ⟨bo, hB⟩
    have hgd : getGameData env.landingFetch env.boxscoreFetch = Except.ok (lo.getD []) := by
      unfold getGameData
      rw [hL, hB]
    rw [hgd]
    dsimp only
    cases hgr : generateReview env.geminiKey env.geminiResult with
    | some text => exact ⟨_, finishProcessing_response env st _ _ sch key g.id b hb⟩
    | none => exact ⟨_, finishProcessing_response env st rv _ sch key g.id b hb⟩

/-- When the schedule fetch, the detail fetch and the rebuild POST
resolve, the polling phase ends in a success response. -/
theorem pollSchedulePhase_no_throw (env : PollEnv) (st : StateStore) (rv : ReviewsStore)
    (h1 : resolves env.scheduleFetch) (h2 : resolves env.landingFetch)
    (h3 : resolves env.boxscoreFetch) (h4 : resolves env.rebuildFetch) :
    ∃ msg, (pollSchedulePhase env st rv).response = Except.ok msg := by
  rcases h1 with ⟨o, hS⟩
  unfold pollSchedulePhase
  rw [hS]
  cases o with
  | none => exact ⟨_, rfl⟩
  | some games =>
    dsimp only
    cases hlp : (getScheduleData games).gameInProgress with
    | some gl => exact ⟨_, rfl⟩
    | none =>
      cases hlc : (getScheduleData games).latestCompleted with
      | none => exact ⟨_, rfl⟩
      | some g =>
        dsimp only
        by_cases hk : (st.lastGameId == some (gameKey g)) = true
        · rw [if_pos hk]
          exact ⟨_, rfl⟩
        · rw [if_neg hk]
          exact processNewGame_no_throw env st rv scheduleOnlyTrace (getScheduleData games) g
            (gameKey g) h2 h3 h4

/-- Claim C4 (amended): remote failures reported as non-ok HTTP
statuses, and text-generation failures, are converted to absent or
default values, and whenever no fetch promise rejects the invocation
completes with a success response; a rejected fetch promise (schedule,
game detail, or rebuild webhook), however, is not caught and propagates
out of the invocation, as the counterexample shows. -/
theorem poll_no_throw (env : PollEnv) (st : StateStore) (rv : ReviewsStore)
    (h1 : resolves env.scheduleFetch) (h2 : resolves env.landingFetch)
    (h3 : resolves env.boxscoreFetch) (h4 : resolves env.rebuildFetch) :
    ∃ msg, (pollOnce env st rv).response = Except.ok msg := by
  unfold pollOnce
  cases hnt : st.nextGameTime with
  | none => exact pollSchedulePhase_no_throw env st rv h1 h2 h3 h4
  | some t =>
    dsimp only
    by_cases hg1 : env.now - t < 0
    · rw [if_pos hg1]
      exact ⟨_, rfl⟩
    · rw [if_neg hg1]
      by_cases hg2 : env.now - t < 90 * 60 * 1000
      · rw [if_pos hg2]
        exact ⟨_, rfl⟩
      · rw [if_neg hg2]
        exact pollSchedulePhase_no_throw env st rv h1 h2 h3 h4

/-- Witness for the amended C4 on the all-resolving environment. -/
theorem poll_no_throw_witness :
    ∃ msg, (pollOnce happyEnv emptyState emptyReviews).response = Except.ok msg :=
  poll_no_throw happyEnv emptyState emptyReviews
    ⟨some [gameA], rfl⟩ ⟨some [], rfl⟩ ⟨some (), rfl⟩ ⟨true, rfl⟩
